import Mathlib

/-!
Shallow embedding of the game-engine backend (Express + Mongoose routes in
`routes/gameRoutes.js`, the nine-operation router file).  The two document
collections (`Game`, `Drawing`) are modelled as lists kept in insertion
order; `findOne` is first-match lookup, `find` is a filter, and saving a
document fetched by `findOne` replaces the first matching record.  Each
route handler becomes a function from the database state (plus request
parameters) to the new database state and a response value.  Timestamps
(`created_at`, defaulted by the schemas to the current clock) and the
store's error paths (the `catch` branches, status 500) are outside the
embedding; no claim depends on them.
-/

namespace GameEngine

/-- One stroke sample of a drawing (`drawingPointSchema`).  The source
stores JavaScript numbers; the numeric values are never inspected by any
route logic, so they are embedded as integers. -/
structure DrawingPoint where
  offsetDx : Int
  offsetDy : Int
  pointType : Int
  pressure : Int
deriving Repr, DecidableEq

/-- One Drawing record.  Modelled from the spec: the current
`models/Drawing.js` is not among the provided sources (an earlier
`drawingSchema` variant appears inline next to `server.js`, giving the
field list and the `is_completed` default of `false`); the spec's data
model keys a Drawing by `(game_code, player_name, player_part)` and the
routes query `game_code` on Drawing records, so the record carries a
`game_code` field in addition to the inline schema's fields. -/
structure Drawing where
  game_code : String
  drawed_parts_of_player : String
  drawing_points : List DrawingPoint
  is_completed : Bool
  player_drawing : String
  player_id : Int
  player_image : String
  player_name : String
  player_part : String
deriving Repr, DecidableEq

/-- One roster entry embedded in a Game (the `players` items of the
`GameState` swagger schema in the routes file). -/
structure Player where
  game_code : String
  player_body_images : List String
  player_body_parts_with_player_names : List String
  player_current_step : List Int
  player_image : String
  player_name : String
  player_number : Int
deriving Repr, DecidableEq

/-- One Game record.  Modelled from the spec: `models/Game.js` is not among
the provided sources; the fields follow the spec's data model and the
`GameState` swagger schema in the routes file.  Per the spec,
`number_of_players` is an ordinary stored integer, maintained manually and
not derived from the roster. -/
structure Game where
  game_code : String
  games_Parts : List String
  players : List Player
  number_of_players : Int
  join : Bool
  start_game : Bool
  drawing_time : Int
deriving Repr, DecidableEq

/-- The persistent state: the two collections, in insertion order. -/
structure DB where
  games : List Game
  drawings : List Drawing
deriving Repr, DecidableEq

/-- `Game.findOne({ game_code })`: first stored game whose code matches. -/
def findGame (db : DB) (gc : String) : Option Game :=
  db.games.find? (fun g => g.game_code == gc)

/-- `game.save()` on a document obtained from `Game.findOne({ game_code })`:
the first record whose code matches is replaced by the mutated document. -/
def saveGameDoc (games : List Game) (gc : String) (g' : Game) : List Game :=
  match games with
  | [] => []
  | g :: rest => if g.game_code == gc then g' :: rest else g :: saveGameDoc rest gc g'

/-- Request body of `POST /updateDrawingStatus`.  Only `is_completed` is
modelled as optional, because the schema declares `default: false` for it;
the other fields are taken as supplied (the README example supplies all of
them). -/
structure DrawingInput where
  game_code : String
  drawed_parts_of_player : String
  drawing_points : List DrawingPoint
  is_completed : Option Bool
  player_drawing : String
  player_id : Int
  player_image : String
  player_name : String
  player_part : String
deriving Repr, DecidableEq

/-- `new Drawing(drawingData)`: the stored record, with the schema default
`is_completed = false` applied when the field is absent. -/
def mkDrawing (inp : DrawingInput) : Drawing :=
  { game_code := inp.game_code
    drawed_parts_of_player := inp.drawed_parts_of_player
    drawing_points := inp.drawing_points
    is_completed := inp.is_completed.getD false
    player_drawing := inp.player_drawing
    player_id := inp.player_id
    player_image := inp.player_image
    player_name := inp.player_name
    player_part := inp.player_part }

/-- `player_data` of `PUT /updateGameWithPlayer` and `POST /validateJoinGame`.
`player_body_images` is optional because the handlers apply
`player_data.player_body_images || []`. -/
structure PlayerData where
  player_name : String
  player_number : Int
  player_image : String
  player_body_parts_with_player_names : List String
  player_current_step : List Int
  player_body_images : Option (List String)
deriving Repr, DecidableEq

/-- `{ ...player_data, game_code, player_body_images: player_data.player_body_images || [] }`. -/
def mkPlayer (gc : String) (pd : PlayerData) : Player :=
  { game_code := gc
    player_body_images := pd.player_body_images.getD []
    player_body_parts_with_player_names := pd.player_body_parts_with_player_names
    player_current_step := pd.player_current_step
    player_image := pd.player_image
    player_name := pd.player_name
    player_number := pd.player_number }

/-- The roster push shared by `updateGameWithPlayer` and `validateJoinGame`:
`game.players.push(updatedPlayerData); game.number_of_players = game.players.length`. -/
def pushPlayer (gc : String) (pd : PlayerData) (g : Game) : Game :=
  let players' := g.players ++ [mkPlayer gc pd]
  { g with players := players', number_of_players := (players'.length : Int) }

/-- `POST /storeGameState`: `new Game(gameData); game.save()` — the supplied
document is stored verbatim (status 201, echoing the stored game). -/
def storeGameState (db : DB) (gameData : Game) : DB × Game :=
  ({ db with games := db.games ++ [gameData] }, gameData)

/-- `POST /updateDrawingStatus`: `new Drawing(drawingData); drawing.save()`
— a fresh record is appended, never upserted (status 201, echoing it). -/
def updateDrawingStatus (db : DB) (inp : DrawingInput) : DB × Drawing :=
  ({ db with drawings := db.drawings ++ [mkDrawing inp] }, mkDrawing inp)

/-- Response of `GET /incompleteUsers/:game_code/:part_name`. -/
inductive IncompleteUsersResult where
  | notFound (message : String)
  | ok (incompletePlayers : List String)
deriving Repr, DecidableEq

/-- HTTP status of an `incompleteUsers` response. -/
def IncompleteUsersResult.status : IncompleteUsersResult → Nat
  | .notFound _ => 404
  | .ok _ => 200

/-- Whether an `incompleteUsers` response lists the given player name. -/
def IncompleteUsersResult.listsPlayer (r : IncompleteUsersResult) (n : String) : Bool :=
  match r with
  | .notFound _ => false
  | .ok l => l.contains n

/-- `GET /incompleteUsers/:game_code/:part_name`: load the game (404 when
absent), collect the names on completed Drawing records for that game and
part, and keep the roster names not among them.  The handler issues only
`findOne`/`find` reads, so the state comes back unchanged. -/
def incompleteUsers (db : DB) (gc part : String) : DB × IncompleteUsersResult :=
  match findGame db gc with
  | none => (db, .notFound "Game not found")
  | some game =>
    let allPlayerNames := game.players.map (fun p => p.player_name)
    let completedDrawingsRecs := db.drawings.filter
      (fun d => d.game_code == gc && d.player_part == part && d.is_completed)
    let completedPlayerNames := completedDrawingsRecs.map (fun d => d.player_name)
    let incompletePlayers := allPlayerNames.filter
      (fun n => !(completedPlayerNames.contains n))
    (db, .ok incompletePlayers)

/-- Response of `GET /getDrawing/...`. -/
inductive GetDrawingResult where
  | notFound (message : String)
  | ok (drawing_points : List DrawingPoint) (is_completed : Bool)
deriving Repr, DecidableEq

/-- `GET /getDrawing/:game_code/:player_name/:part_name`: first record
matching all three keys, 404 when none. -/
def getDrawing (db : DB) (gc pn part : String) : DB × GetDrawingResult :=
  match db.drawings.find?
      (fun d => d.game_code == gc && d.player_name == pn && d.player_part == part) with
  | none => (db, .notFound "Drawing not found")
  | some d => (db, .ok d.drawing_points d.is_completed)

/-- Response of `GET /completedDrawings/:game_code`. -/
inductive CompletedDrawingsResult where
  | notFound (message : String)
  | ok (drawings : List Drawing)
deriving Repr, DecidableEq

/-- HTTP status of a `completedDrawings` response. -/
def CompletedDrawingsResult.status : CompletedDrawingsResult → Nat
  | .notFound _ => 404
  | .ok _ => 200

/-- `GET /completedDrawings/:game_code`: the handler destructures
`game_code` from the request but its query is `Drawing.find({ is_completed:
true })` — every completed drawing in the store, with no `game_code`
filter; 404 only when that store-wide list is empty. -/
def completedDrawings (db : DB) (gc : String) : DB × CompletedDrawingsResult :=
  let cs := db.drawings.filter (fun d => d.is_completed)
  if cs.isEmpty then (db, .notFound "No completed drawings found")
  else (db, .ok cs)

/-- Response of the game-mutating routes (`updateGameWithPlayer`,
`updateGameStatus`) and of `getGameData`. -/
inductive GameUpdateResult where
  | notFound (message : String)
  | ok (message : String) (game : Game)
deriving Repr, DecidableEq

/-- `PUT /updateGameWithPlayer`: find the game (404 when absent), push the
player onto the roster, recompute `number_of_players`, save.  No check of
`start_game` or `join` is performed. -/
def updateGameWithPlayer (db : DB) (gc : String) (pd : PlayerData) : DB × GameUpdateResult :=
  match findGame db gc with
  | none => (db, .notFound "Game not found")
  | some game =>
    let game' := pushPlayer gc pd game
    ({ db with games := saveGameDoc db.games gc game' },
     .ok "Game updated successfully" game')

/-- `PUT /updateGameStatus`: find the game (404 when absent) and overwrite
exactly the flag fields present in the request body, leaving the roster
untouched. -/
def updateGameStatus (db : DB) (gc : String)
    (sg : Option Bool) (j : Option Bool) (dt : Option Int) : DB × GameUpdateResult :=
  match findGame db gc with
  | none => (db, .notFound "Game not found")
  | some game =>
    let game' := { game with
      start_game := sg.getD game.start_game
      join := j.getD game.join
      drawing_time := dt.getD game.drawing_time }
    ({ db with games := saveGameDoc db.games gc game' },
     .ok "Game status updated successfully" game')

/-- Response of `POST /validateJoinGame`: 404, or 400 with `canJoin:
false`, or 200 with `canJoin: true` and the updated game. -/
inductive JoinResult where
  | notFound (message : String)
  | rejected (message : String) (canJoin : Bool)
  | joined (message : String) (canJoin : Bool) (game : Game)
deriving Repr, DecidableEq

/-- HTTP status of a `validateJoinGame` response. -/
def JoinResult.status : JoinResult → Nat
  | .notFound _ => 404
  | .rejected _ _ => 400
  | .joined _ _ _ => 200

/-- The `canJoin` field of a `validateJoinGame` response body (absent on
the 404 path). -/
def JoinResult.canJoin : JoinResult → Option Bool
  | .notFound _ => none
  | .rejected _ c => some c
  | .joined _ c _ => some c

/-- `POST /validateJoinGame`: find the game (404 when absent); reject with
400 when `start_game` is set (checked first) or when `join` is cleared
(checked second); otherwise push the player, recompute
`number_of_players`, save, and answer 200 with `canJoin: true`. -/
def validateJoinGame (db : DB) (gc : String) (pd : PlayerData) : DB × JoinResult :=
  match findGame db gc with
  | none => (db, .notFound "Game not found")
  | some game =>
    if game.start_game then
      (db, .rejected "Room already started" false)
    else if !game.join then
      (db, .rejected "Room is not accepting new players" false)
    else
      let game' := pushPlayer gc pd game
      ({ db with games := saveGameDoc db.games gc game' },
       .joined "User joined the game successfully" true game')

/-- `GET /getGameData/:game_code`: first matching game, 404 when none. -/
def getGameData (db : DB) (gc : String) : DB × GameUpdateResult :=
  match findGame db gc with
  | none => (db, .notFound "Game not found")
  | some game => (db, .ok "Game data retrieved successfully" game)

/-! ### Concrete records used by witnesses and counterexamples -/

/-- A roster entry shaped like the README's example player. -/
def exPlayer (n : String) (k : Int) : Player :=
  { game_code := "1000"
    player_body_images := []
    player_body_parts_with_player_names := ["Hat-", "Head-"]
    player_current_step := [0, 1]
    player_image := ""
    player_name := n
    player_number := k }

/-- An open, not-yet-started lobby with a three-entry roster (the name
`alice` occurs twice, to exercise the no-deduplication part of the query). -/
def exGame : Game :=
  { game_code := "1000"
    games_Parts := ["Hat", "Head"]
    players := [exPlayer "alice" 1, exPlayer "bob" 2, exPlayer "alice" 3]
    number_of_players := 3
    join := true
    start_game := false
    drawing_time := 60 }

/-- A stored drawing record with the given keys and completion flag. -/
def exDrawing (gc n part : String) (c : Bool) : Drawing :=
  { game_code := gc
    drawed_parts_of_player := part
    drawing_points := []
    is_completed := c
    player_drawing := ""
    player_id := 1
    player_image := ""
    player_name := n
    player_part := part }

/-- A database with one game and three drawings: a completed `Hat` by
`bob` in game `1000`, a completed `Hat` by `alice` in a different game
`2000`, and a not-completed `Hat` by `alice` in game `1000`. -/
def exDB : DB :=
  { games := [exGame]
    drawings := [exDrawing "1000" "bob" "Hat" true, exDrawing "2000" "alice" "Hat" true,
                 exDrawing "1000" "alice" "Hat" false] }

/-! ### Helper lemmas -/

/-- The membership test the handler performs on the names of the completed
drawings, rephrased as the existence of a completed Drawing record. -/
lemma notContains_completed (l : List Drawing) (gc part n : String) :
    (!(((l.filter (fun d => d.game_code == gc && d.player_part == part && d.is_completed)).map
        (fun d => d.player_name)).contains n)) =
      decide (¬ ∃ d ∈ l, d.game_code = gc ∧ d.player_part = part ∧
        d.is_completed = true ∧ d.player_name = n) := by
  rw [Bool.eq_iff_iff]
  simp [List.elem_iff, List.mem_filter, List.mem_map]

/-- Replacing the first code-matching game makes the replacement the first
code-matching game, provided it still carries a matching code. -/
lemma findGame_saveGameDoc (games : List Game) (gc : String) (g g' : Game)
    (hfind : games.find? (fun x => x.game_code == gc) = some g)
    (hg' : (g'.game_code == gc) = true) :
    (saveGameDoc games gc g').find? (fun x => x.game_code == gc) = some g' := by
  induction games with
  | nil => simp at hfind
  | cons h t ih =>
    by_cases hh : (h.game_code == gc) = true
    · simp [saveGameDoc, hh, List.find?_cons_of_pos, hg']
    · have hh' : (h.game_code == gc) = false := by simpa using hh
      rw [List.find?_cons] at hfind
      simp only [hh', cond_false] at hfind
      simp only [saveGameDoc, hh', Bool.false_eq_true, if_false]
      rw [List.find?_cons]
      simp only [hh', cond_false]
      exact ih hfind

/-- A first-match lookup skips a prefix containing no match. -/
lemma find?_append_none {α} (l₁ l₂ : List α) (p : α → Bool) (h : l₁.find? p = none) :
    (l₁ ++ l₂).find? p = l₂.find? p := by
  induction l₁ with
  | nil => rfl
  | cons a t ih =>
    rw [List.find?_eq_none] at h
    have ha : p a = false := by simpa using h a (List.mem_cons_self a t)
    rw [List.cons_append, List.find?_cons]
    simp only [ha, cond_false]
    exact ih (List.find?_eq_none.mpr (fun x hx => h x (List.mem_cons_of_mem a hx)))

/-- When the game lookup succeeds, `incompleteUsers` leaves the state
unchanged and answers with the roster names filtered by the non-existence
of a completed Drawing record for that game, part and name. -/
lemma incompleteUsers_of_findGame (db : DB) (gc part : String) (G : Game)
    (hfind : findGame db gc = some G) :
    incompleteUsers db gc part = (db, .ok ((G.players.map (fun p => p.player_name)).filter
      (fun n => decide (¬ ∃ d ∈ db.drawings, d.game_code = gc ∧ d.player_part = part ∧
        d.is_completed = true ∧ d.player_name = n)))) := by
  unfold incompleteUsers
  rw [hfind]
  simp only [notContains_completed]

/-- A roster name with no completed Drawing record for the given game and
part is listed by `incompleteUsers`. -/
lemma listsPlayer_of_no_completed (db : DB) (gc part name : String) (G : Game)
    (hfind : findGame db gc = some G)
    (hmem : name ∈ G.players.map (fun p => p.player_name))
    (honly : ∀ d ∈ db.drawings, d.game_code = gc → d.player_part = part →
      d.player_name = name → d.is_completed = false) :
    ((incompleteUsers db gc part).2).listsPlayer name = true := by
  rw [incompleteUsers_of_findGame db gc part G hfind]
  simp only [IncompleteUsersResult.listsPlayer]
  rw [List.elem_iff, List.mem_filter]
  refine ⟨hmem, ?_⟩
  simp only [decide_eq_true_eq]
  rintro ⟨d, hd, h1, h2, h3, h4⟩
  have := honly d hd h1 h2 h4
  rw [this] at h3
  exact Bool.false_ne_true h3

/-! ### Claims -/

/-- C1: for the first stored Game matching `game_code` and any part name,
`incompleteUsers` returns the roster's `player_name` sequence in roster
order, without deduplication, with a name removed exactly when some
Drawing record with that `game_code`, that `player_part`, `is_completed =
true` and that `player_name` exists. -/
theorem c1_incompleteUsers_spec (db : DB) (gc part : String) (G : Game)
    (hfind : findGame db gc = some G) :
    (incompleteUsers db gc part).2 = .ok ((G.players.map (fun p => p.player_name)).filter
      (fun n => decide (¬ ∃ d ∈ db.drawings, d.game_code = gc ∧ d.player_part = part ∧
        d.is_completed = true ∧ d.player_name = n))) := by
  rw [incompleteUsers_of_findGame db gc part G hfind]

/-- Witness for C1 on a concrete store: `bob` has a completed `Hat`
drawing in game `1000`, `alice` only a foreign-game completed one and a
not-completed one, so the answer is `[alice, alice]` (her two roster
entries, in roster order). -/
theorem c1_witness :
    findGame exDB "1000" = some exGame ∧
    (incompleteUsers exDB "1000" "Hat").2 = .ok ["alice", "alice"] :=
  ⟨by decide, (c1_incompleteUsers_spec exDB "1000" "Hat" exGame (by decide)).trans (by decide)⟩

/-- C2: a player all of whose Drawing records for the given game and part
have `is_completed = false` is listed by `incompleteUsers`, and consing
any not-completed drawing onto the store does not change the response at
all — such a record behaves exactly like no record. -/
theorem c2_incomplete_drawing_still_listed (db : DB) (gc part name : String) (G : Game)
    (d0 : Drawing)
    (hfind : findGame db gc = some G)
    (hmem : name ∈ G.players.map (fun p => p.player_name))
    (honly : ∀ d ∈ db.drawings, d.game_code = gc → d.player_part = part →
      d.player_name = name → d.is_completed = false)
    (hd0 : d0.is_completed = false) :
    ((incompleteUsers db gc part).2).listsPlayer name = true ∧
    (incompleteUsers { db with drawings := d0 :: db.drawings } gc part).2 =
      (incompleteUsers db gc part).2 := by
  constructor
  · exact listsPlayer_of_no_completed db gc part name G hfind hmem honly
  · have hfind' : findGame { db with drawings := d0 :: db.drawings } gc = some G := hfind
    rw [incompleteUsers_of_findGame _ gc part G hfind',
      incompleteUsers_of_findGame db gc part G hfind]
    simp only []
    apply congrArg
    apply List.filter_congr
    intro n _
    rw [decide_eq_decide]
    simp [hd0]

/-- Witness for C2 on the concrete store: `alice`'s only game-`1000` `Hat`
record is not completed, she is listed, and consing another not-completed
record changes nothing. -/
theorem c2_witness :
    (findGame exDB "1000" = some exGame ∧
      "alice" ∈ exGame.players.map (fun p => p.player_name) ∧
      (exDrawing "1000" "alice" "Head" false).is_completed = false) ∧
    ((incompleteUsers exDB "1000" "Hat").2).listsPlayer "alice" = true ∧
    (incompleteUsers { exDB with
        drawings := exDrawing "1000" "alice" "Head" false :: exDB.drawings } "1000" "Hat").2 =
      (incompleteUsers exDB "1000" "Hat").2 :=
  ⟨⟨by decide, by decide, by decide⟩,
    c2_incomplete_drawing_still_listed exDB "1000" "Hat" "alice" exGame
      (exDrawing "1000" "alice" "Head" false) (by decide) (by decide) (by decide) (by decide)⟩

/-- C8: `incompleteUsers` performs only reads: the stores come back
unchanged, and a second call with the same arguments on the resulting
state answers exactly the same. -/
theorem c8_incompleteUsers_read_only (db : DB) (gc part : String) :
    (incompleteUsers db gc part).1 = db ∧
    (incompleteUsers ((incompleteUsers db gc part).1) gc part).2 =
      (incompleteUsers db gc part).2 := by
  have h1 : (incompleteUsers db gc part).1 = db := by
    unfold incompleteUsers
    rcases hf : findGame db gc with _ | g <;> simp [hf]
  exact ⟨h1, by rw [h1]⟩

/-- A lobby that has been started and closed for joining. -/
def exGameStarted : Game :=
  { exGame with start_game := true, join := false }

/-- A database holding only the started, closed lobby. -/
def exDBStarted : DB :=
  { games := [exGameStarted], drawings := [] }

/-- The `player_data` payload of a joining player. -/
def exPD : PlayerData :=
  { player_name := "carol"
    player_number := 4
    player_image := ""
    player_body_parts_with_player_names := ["Hat-", "Head-"]
    player_current_step := [0, 1]
    player_body_images := none }

/-- C4: on an existing game with `start_game = true` or `join = false`,
`validateJoinGame` answers 400 with `canJoin: false` and leaves the whole
store — in particular the Game record — unchanged. -/
theorem c4_validateJoinGame_rejects_without_mutation (db : DB) (gc : String) (pd : PlayerData)
    (g : Game)
    (hfind : findGame db gc = some g)
    (hrej : g.start_game = true ∨ g.join = false) :
    (validateJoinGame db gc pd).1 = db ∧
    ((validateJoinGame db gc pd).2).status = 400 ∧
    ((validateJoinGame db gc pd).2).canJoin = some false := by
  unfold validateJoinGame
  rw [hfind]
  rcases hrej with h | h
  · simp [h, JoinResult.status, JoinResult.canJoin]
  · by_cases hs : g.start_game <;>
      simp [hs, h, JoinResult.status, JoinResult.canJoin]

/-- Witness for C4 on the started, closed lobby. -/
theorem c4_witness :
    (findGame exDBStarted "1000" = some exGameStarted ∧ exGameStarted.start_game = true) ∧
    (validateJoinGame exDBStarted "1000" exPD).1 = exDBStarted ∧
    ((validateJoinGame exDBStarted "1000" exPD).2).status = 400 ∧
    ((validateJoinGame exDBStarted "1000" exPD).2).canJoin = some false :=
  ⟨⟨by decide, by decide⟩,
    c4_validateJoinGame_rejects_without_mutation exDBStarted "1000" exPD exGameStarted
      (by decide) (Or.inl (by decide))⟩

/-- C5: on an existing game with `start_game = false` and `join = true`,
`validateJoinGame` answers 200 with `canJoin: true`, the stored roster is
the old roster with the submitted player appended, and the stored
`number_of_players` is the length of that new roster. -/
theorem c5_validateJoinGame_success (db : DB) (gc : String) (pd : PlayerData) (g : Game)
    (hfind : findGame db gc = some g)
    (hsg : g.start_game = false) (hj : g.join = true) :
    (validateJoinGame db gc pd).2 =
      .joined "User joined the game successfully" true (pushPlayer gc pd g) ∧
    findGame (validateJoinGame db gc pd).1 gc = some (pushPlayer gc pd g) ∧
    (pushPlayer gc pd g).players = g.players ++ [mkPlayer gc pd] ∧
    (pushPlayer gc pd g).number_of_players =
      (((pushPlayer gc pd g).players).length : Int) := by
  have hcode : ((pushPlayer gc pd g).game_code == gc) = true := by
    simpa [pushPlayer] using List.find?_some hfind
  have hstate : (validateJoinGame db gc pd).1 =
      { db with games := saveGameDoc db.games gc (pushPlayer gc pd g) } := by
    unfold validateJoinGame
    rw [hfind]
    simp [hsg, hj]
  have hresp : (validateJoinGame db gc pd).2 =
      .joined "User joined the game successfully" true (pushPlayer gc pd g) := by
    unfold validateJoinGame
    rw [hfind]
    simp [hsg, hj]
  refine ⟨hresp, ?_, rfl, rfl⟩
  rw [hstate]
  exact findGame_saveGameDoc db.games gc g (pushPlayer gc pd g) hfind hcode

/-- Witness for C5 on the open lobby: `carol` joins game `1000`. -/
theorem c5_witness :
    (findGame exDB "1000" = some exGame ∧ exGame.start_game = false ∧ exGame.join = true) ∧
    (validateJoinGame exDB "1000" exPD).2 =
      .joined "User joined the game successfully" true (pushPlayer "1000" exPD exGame) ∧
    findGame (validateJoinGame exDB "1000" exPD).1 "1000" =
      some (pushPlayer "1000" exPD exGame) ∧
    (pushPlayer "1000" exPD exGame).players = exGame.players ++ [mkPlayer "1000" exPD] ∧
    (pushPlayer "1000" exPD exGame).number_of_players =
      (((pushPlayer "1000" exPD exGame).players).length : Int) :=
  ⟨⟨by decide, by decide, by decide⟩,
    c5_validateJoinGame_success exDB "1000" exPD exGame (by decide) (by decide) (by decide)⟩

/-- C9: the started check precedes the closed check — on a game with both
`start_game = true` and `join = false`, the 400 response carries the
message `Room already started`. -/
theorem c9_started_message_wins (db : DB) (gc : String) (pd : PlayerData) (g : Game)
    (hfind : findGame db gc = some g)
    (hs : g.start_game = true) (hj : g.join = false) :
    (validateJoinGame db gc pd).2 = .rejected "Room already started" false := by
  unfold validateJoinGame
  rw [hfind]
  simp [hs]

/-- Witness for C9 on the started, closed lobby. -/
theorem c9_witness :
    (findGame exDBStarted "1000" = some exGameStarted ∧
      exGameStarted.start_game = true ∧ exGameStarted.join = false) ∧
    (validateJoinGame exDBStarted "1000" exPD).2 = .rejected "Room already started" false :=
  ⟨⟨by decide, by decide, by decide⟩,
    c9_started_message_wins exDBStarted "1000" exPD exGameStarted
      (by decide) (by decide) (by decide)⟩

/-- C6 counterexample: the claim that no API operation changes the roster
of a started game is false — a started, closed lobby created through
`storeGameState` has its roster changed by `updateGameWithPlayer`, which
performs no `start_game` check. -/
theorem c6_counterexample :
    ((updateGameWithPlayer (storeGameState ⟨[], []⟩ exGameStarted).1 "1000" exPD).1.games.map
        (fun g => g.players)) ≠
      ((storeGameState ⟨[], []⟩ exGameStarted).1.games.map (fun g => g.players)) := by
  decide

/-- C6 amended: once `start_game` is true, `validateJoinGame` leaves the
store — hence every roster — unchanged, but `updateGameWithPlayer` still
appends the submitted player to the started game's roster. -/
theorem c6_amended_started_roster (db : DB) (gc : String) (pd : PlayerData) (g : Game)
    (hfind : findGame db gc = some g)
    (hs : g.start_game = true) :
    (validateJoinGame db gc pd).1 = db ∧
    findGame (updateGameWithPlayer db gc pd).1 gc = some (pushPlayer gc pd g) ∧
    (pushPlayer gc pd g).players = g.players ++ [mkPlayer gc pd] := by
  have hcode : ((pushPlayer gc pd g).game_code == gc) = true := by
    simpa [pushPlayer] using List.find?_some hfind
  refine ⟨?_, ?_, rfl⟩
  · unfold validateJoinGame
    rw [hfind]
    simp [hs]
  · have hstate : (updateGameWithPlayer db gc pd).1 =
        { db with games := saveGameDoc db.games gc (pushPlayer gc pd g) } := by
      unfold updateGameWithPlayer
      rw [hfind]
    rw [hstate]
    exact findGame_saveGameDoc db.games gc g (pushPlayer gc pd g) hfind hcode

/-- Witness for the amended C6 on the started, closed lobby. -/
theorem c6_witness :
    (findGame exDBStarted "1000" = some exGameStarted ∧ exGameStarted.start_game = true) ∧
    (validateJoinGame exDBStarted "1000" exPD).1 = exDBStarted ∧
    findGame (updateGameWithPlayer exDBStarted "1000" exPD).1 "1000" =
      some (pushPlayer "1000" exPD exGameStarted) ∧
    (pushPlayer "1000" exPD exGameStarted).players =
      exGameStarted.players ++ [mkPlayer "1000" exPD] :=
  ⟨⟨by decide, by decide⟩,
    c6_amended_started_roster exDBStarted "1000" exPD exGameStarted (by decide) (by decide)⟩

/-- A client-supplied game whose `number_of_players` disagrees with its
(empty) roster. -/
def exGameMismatch : Game :=
  { exGame with players := [], number_of_players := 1 }

/-- C7 counterexample: `storeGameState` stores the client-supplied
document verbatim, so a reachable Game record can violate
`number_of_players = players.length`. -/
theorem c7_counterexample :
    ((storeGameState ⟨[], []⟩ exGameMismatch).1.games.all
      (fun g => g.number_of_players == (g.players.length : Int))) = false := by
  decide

/-- C7 amended: the roster-mutating operations (`updateGameWithPlayer` and
a successful `validateJoinGame`) do establish `number_of_players =
players.length` on the record they store, but `storeGameState` appends the
client-supplied document verbatim, so creation does not establish the
equality. -/
theorem c7_amended_roster_count (db : DB) (gc : String) (pd : PlayerData) (g g0 : Game)
    (hfind : findGame db gc = some g)
    (hsg : g.start_game = false) (hj : g.join = true) :
    findGame (updateGameWithPlayer db gc pd).1 gc = some (pushPlayer gc pd g) ∧
    findGame (validateJoinGame db gc pd).1 gc = some (pushPlayer gc pd g) ∧
    (pushPlayer gc pd g).number_of_players =
      (((pushPlayer gc pd g).players).length : Int) ∧
    (storeGameState db g0).1.games = db.games ++ [g0] := by
  have hcode : ((pushPlayer gc pd g).game_code == gc) = true := by
    simpa [pushPlayer] using List.find?_some hfind
  refine ⟨?_, ?_, rfl, rfl⟩
  · have hstate : (updateGameWithPlayer db gc pd).1 =
        { db with games := saveGameDoc db.games gc (pushPlayer gc pd g) } := by
      unfold updateGameWithPlayer
      rw [hfind]
    rw [hstate]
    exact findGame_saveGameDoc db.games gc g (pushPlayer gc pd g) hfind hcode
  · have hstate : (validateJoinGame db gc pd).1 =
        { db with games := saveGameDoc db.games gc (pushPlayer gc pd g) } := by
      unfold validateJoinGame
      rw [hfind]
      simp [hsg, hj]
    rw [hstate]
    exact findGame_saveGameDoc db.games gc g (pushPlayer gc pd g) hfind hcode

/-- Witness for the amended C7 on the open lobby. -/
theorem c7_witness :
    (findGame exDB "1000" = some exGame ∧ exGame.start_game = false ∧ exGame.join = true) ∧
    findGame (updateGameWithPlayer exDB "1000" exPD).1 "1000" =
      some (pushPlayer "1000" exPD exGame) ∧
    findGame (validateJoinGame exDB "1000" exPD).1 "1000" =
      some (pushPlayer "1000" exPD exGame) ∧
    (pushPlayer "1000" exPD exGame).number_of_players =
      (((pushPlayer "1000" exPD exGame).players).length : Int) ∧
    (storeGameState exDB exGameMismatch).1.games = exDB.games ++ [exGameMismatch] :=
  ⟨⟨by decide, by decide, by decide⟩,
    c7_amended_roster_count exDB "1000" exPD exGame exGameMismatch
      (by decide) (by decide) (by decide)⟩

/-- A drawing-submission body shaped like the README's example, with the
completion flag as given (or absent). -/
def exInp (gc n part : String) (c : Option Bool) : DrawingInput :=
  { game_code := gc
    drawed_parts_of_player := part
    drawing_points := [⟨157, 120, 0, 1⟩]
    is_completed := c
    player_drawing := ""
    player_id := 1
    player_image := ""
    player_name := n
    player_part := part }

/-- C3, code behaviour at the failing input: after storing a completed
drawing for game `A` through `updateDrawingStatus`, querying
`completedDrawings` for the different game `B` answers 200 and returns
game `A`'s drawing — the handler never applies its `game_code` parameter,
although its own route path, summary and comment say `for the game`.  The
claim says the `B` list is empty, so this call should have been a 404. -/
theorem c3_code_bug_ignores_game_code :
    ((completedDrawings
        (updateDrawingStatus ⟨[], []⟩ (exInp "A" "bob" "Hat" (some true))).1 "B").2 =
      .ok [mkDrawing (exInp "A" "bob" "Hat" (some true))]) ∧
    (mkDrawing (exInp "A" "bob" "Hat" (some true))).game_code ≠ "B" ∧
    ((completedDrawings
        (updateDrawingStatus ⟨[], []⟩ (exInp "A" "bob" "Hat" (some true))).1 "B").2).status
      = 200 := by
  decide

/-- C10: a submission with no `is_completed` field is stored with the
schema default `false`; its player is therefore still listed by
`incompleteUsers` for that part (given the game's roster contains the name
and no completed record for that game, part and name exists), and
`getDrawing` — which returns the first record matching the three keys —
reports `is_completed = false` for it when it is the only such record. -/
theorem c10_default_is_completed_false (db : DB) (gc part name : String) (G : Game)
    (inp : DrawingInput)
    (hfind : findGame db gc = some G)
    (hmem : name ∈ G.players.map (fun p => p.player_name))
    (hnone : ∀ d ∈ db.drawings, ¬(d.game_code = gc ∧ d.player_name = name ∧
      d.player_part = part))
    (hic : inp.is_completed = none)
    (hgc : inp.game_code = gc) (hn : inp.player_name = name) (hp : inp.player_part = part) :
    (mkDrawing inp).is_completed = false ∧
    ((incompleteUsers (updateDrawingStatus db inp).1 gc part).2).listsPlayer name = true ∧
    (getDrawing (updateDrawingStatus db inp).1 gc name part).2 =
      .ok inp.drawing_points false := by
  have hfalse : (mkDrawing inp).is_completed = false := by
    simp [mkDrawing, hic]
  have hfind' : findGame (updateDrawingStatus db inp).1 gc = some G := hfind
  refine ⟨hfalse, ?_, ?_⟩
  · apply listsPlayer_of_no_completed (updateDrawingStatus db inp).1 gc part name G hfind' hmem
    intro d hd h1 h2 h3
    rcases List.mem_append.mp hd with hd' | hd'
    · exact absurd ⟨h1, h3, h2⟩ (hnone d hd')
    · rw [List.mem_singleton.mp hd']
      exact hfalse
  · have hpre : db.drawings.find?
        (fun d => d.game_code == gc && d.player_name == name && d.player_part == part)
        = none := by
      apply List.find?_eq_none.mpr
      intro d hd hcontra
      simp only [Bool.and_eq_true, beq_iff_eq] at hcontra
      exact hnone d hd ⟨hcontra.1.1, hcontra.1.2, hcontra.2⟩
    have hmatch : ((mkDrawing inp).game_code == gc && (mkDrawing inp).player_name == name &&
        (mkDrawing inp).player_part == part) = true := by
      simp [mkDrawing, hgc, hn, hp]
    unfold getDrawing
    have hfound : ((updateDrawingStatus db inp).1).drawings.find?
        (fun d => d.game_code == gc && d.player_name == name && d.player_part == part)
        = some (mkDrawing inp) := by
      show (db.drawings ++ [mkDrawing inp]).find? _ = _
      rw [find?_append_none db.drawings [mkDrawing inp] _ hpre]
      exact List.find?_cons_of_pos _ hmatch
    rw [hfound]
    simp [mkDrawing, hic]

/-- Witness for C10: `bob` submits a `Head` drawing for game `1000` with
no completion flag; he stays listed for `Head` and `getDrawing` reports
the stored record as not completed. -/
theorem c10_witness :
    (findGame exDB "1000" = some exGame ∧
      "bob" ∈ exGame.players.map (fun p => p.player_name) ∧
      (exInp "1000" "bob" "Head" none).is_completed = none) ∧
    (mkDrawing (exInp "1000" "bob" "Head" none)).is_completed = false ∧
    ((incompleteUsers (updateDrawingStatus exDB (exInp "1000" "bob" "Head" none)).1
        "1000" "Head").2).listsPlayer "bob" = true ∧
    (getDrawing (updateDrawingStatus exDB (exInp "1000" "bob" "Head" none)).1
        "1000" "bob" "Head").2 = .ok (exInp "1000" "bob" "Head" none).drawing_points false :=
  ⟨⟨by decide, by decide, by decide⟩,
    c10_default_is_completed_false exDB "1000" "Head" "bob" exGame
      (exInp "1000" "bob" "Head" none) (by decide) (by decide) (by decide)
      (by decide) (by decide) (by decide) (by decide)⟩

end GameEngine
